import Mathlib

/-!
Verification of the USMLE-prep question service against its specification.

The development shallowly embeds the TypeScript sources:
 * `src/lib/gemini.ts`  — the AI response extractor/validator pipeline
   (`generateQuestionsWithGemini`, lines 128-210) and its HTTP-failure
   message classification;
 * `src/pages/api/generate.ts` — the error-message → HTTP-status mapping
   (lines 95-126);
 * `src/pages/api/questions.ts` — the POST/DELETE handlers and the
   step-agnostic GET question listing, over an explicit document-store model.

JavaScript values flowing through these handlers are JSON-parsed data, so
they are modelled by the `Json` inductive below.  JavaScript numbers are
modelled as rationals (every JSON numeric literal denotes a rational; none
of the concrete inputs used in the theorems exercises floating-point
rounding).  Property access, truthiness, `||` defaulting and the relevant
`String()` / `JSON.stringify` coercions are modelled explicitly.
-/

/-- A JSON value (the result of `JSON.parse`, and the shape of request
bodies handled by the API routes). Numbers are modelled as rationals. -/
inductive Json where
  | null
  | bool (b : Bool)
  | num (q : Rat)
  | str (s : String)
  | arr (items : List Json)
  | obj (fields : List (String × Json))
deriving Repr, Inhabited

mutual

/-- Decidable equality on JSON values (written by hand: the nested
inductive is outside the scope of the deriving handler). -/
def jsonDecEq : (a b : Json) → Decidable (a = b)
  | Json.null, Json.null => isTrue rfl
  | Json.null, Json.bool _ => isFalse (fun h => Json.noConfusion h)
  | Json.null, Json.num _ => isFalse (fun h => Json.noConfusion h)
  | Json.null, Json.str _ => isFalse (fun h => Json.noConfusion h)
  | Json.null, Json.arr _ => isFalse (fun h => Json.noConfusion h)
  | Json.null, Json.obj _ => isFalse (fun h => Json.noConfusion h)
  | Json.bool _, Json.null => isFalse (fun h => Json.noConfusion h)
  | Json.bool a, Json.bool b =>
    match decEq a b with
    | isTrue h => isTrue (by rw [h])
    | isFalse h => isFalse (fun hh => h (Json.bool.inj hh))
  | Json.bool _, Json.num _ => isFalse (fun h => Json.noConfusion h)
  | Json.bool _, Json.str _ => isFalse (fun h => Json.noConfusion h)
  | Json.bool _, Json.arr _ => isFalse (fun h => Json.noConfusion h)
  | Json.bool _, Json.obj _ => isFalse (fun h => Json.noConfusion h)
  | Json.num _, Json.null => isFalse (fun h => Json.noConfusion h)
  | Json.num _, Json.bool _ => isFalse (fun h => Json.noConfusion h)
  | Json.num a, Json.num b =>
    match decEq a b with
    | isTrue h => isTrue (by rw [h])
    | isFalse h => isFalse (fun hh => h (Json.num.inj hh))
  | Json.num _, Json.str _ => isFalse (fun h => Json.noConfusion h)
  | Json.num _, Json.arr _ => isFalse (fun h => Json.noConfusion h)
  | Json.num _, Json.obj _ => isFalse (fun h => Json.noConfusion h)
  | Json.str _, Json.null => isFalse (fun h => Json.noConfusion h)
  | Json.str _, Json.bool _ => isFalse (fun h => Json.noConfusion h)
  | Json.str _, Json.num _ => isFalse (fun h => Json.noConfusion h)
  | Json.str a, Json.str b =>
    match decEq a b with
    | isTrue h => isTrue (by rw [h])
    | isFalse h => isFalse (fun hh => h (Json.str.inj hh))
  | Json.str _, Json.arr _ => isFalse (fun h => Json.noConfusion h)
  | Json.str _, Json.obj _ => isFalse (fun h => Json.noConfusion h)
  | Json.arr _, Json.null => isFalse (fun h => Json.noConfusion h)
  | Json.arr _, Json.bool _ => isFalse (fun h => Json.noConfusion h)
  | Json.arr _, Json.num _ => isFalse (fun h => Json.noConfusion h)
  | Json.arr _, Json.str _ => isFalse (fun h => Json.noConfusion h)
  | Json.arr xs, Json.arr ys =>
    match jsonListDecEq xs ys with
    | isTrue h => isTrue (by rw [h])
    | isFalse h => isFalse (fun hh => h (Json.arr.inj hh))
  | Json.arr _, Json.obj _ => isFalse (fun h => Json.noConfusion h)
  | Json.obj _, Json.null => isFalse (fun h => Json.noConfusion h)
  | Json.obj _, Json.bool _ => isFalse (fun h => Json.noConfusion h)
  | Json.obj _, Json.num _ => isFalse (fun h => Json.noConfusion h)
  | Json.obj _, Json.str _ => isFalse (fun h => Json.noConfusion h)
  | Json.obj _, Json.arr _ => isFalse (fun h => Json.noConfusion h)
  | Json.obj xs, Json.obj ys =>
    match jsonFieldsDecEq xs ys with
    | isTrue h => isTrue (by rw [h])
    | isFalse h => isFalse (fun hh => h (Json.obj.inj hh))

/-- Decidable equality on lists of JSON values. -/
def jsonListDecEq : (xs ys : List Json) → Decidable (xs = ys)
  | [], [] => isTrue rfl
  | [], _ :: _ => isFalse (fun h => List.noConfusion h)
  | _ :: _, [] => isFalse (fun h => List.noConfusion h)
  | x :: xs, y :: ys =>
    match jsonDecEq x y with
    | isFalse h => isFalse (fun hh => h (List.cons.inj hh).1)
    | isTrue h1 =>
      match jsonListDecEq xs ys with
      | isTrue h2 => isTrue (by rw [h1, h2])
      | isFalse h2 => isFalse (fun hh => h2 (List.cons.inj hh).2)

/-- Decidable equality on JSON object field lists. -/
def jsonFieldsDecEq : (xs ys : List (String × Json)) → Decidable (xs = ys)
  | [], [] => isTrue rfl
  | [], _ :: _ => isFalse (fun h => List.noConfusion h)
  | _ :: _, [] => isFalse (fun h => List.noConfusion h)
  | (k, v) :: xs, (k', v') :: ys =>
    match decEq k k' with
    | isFalse h => isFalse (fun hh => h (congrArg Prod.fst (List.cons.inj hh).1))
    | isTrue hk =>
      match jsonDecEq v v' with
      | isFalse h => isFalse (fun hh => h (congrArg Prod.snd (List.cons.inj hh).1))
      | isTrue hv =>
        match jsonFieldsDecEq xs ys with
        | isTrue ht => isTrue (by rw [hk, hv, ht])
        | isFalse h => isFalse (fun hh => h (List.cons.inj hh).2)

end

instance : DecidableEq Json := jsonDecEq

/-- Field lookup where the *last* occurrence of a duplicated key wins,
matching `JSON.parse` object semantics. -/
def lookupLast (fields : List (String × Json)) (k : String) : Option Json :=
  match fields with
  | [] => none
  | (k', v) :: rest =>
    match lookupLast rest k with
    | some r => some r
    | none => if k' = k then some v else none

/-- JavaScript property access `j.k`: `some` the field value on objects,
`none` (i.e. `undefined`) on missing fields and on non-object values. -/
def jget (j : Json) (k : String) : Option Json :=
  match j with
  | Json.obj fields => lookupLast fields k
  | _ => none

/-- JavaScript truthiness of a JSON value: `null`, `false`, `0` and the
empty string are falsy; every other JSON value is truthy. -/
def truthy : Json → Bool
  | Json.null => false
  | Json.bool b => b
  | Json.num q => decide (q ≠ 0)
  | Json.str s => decide (s ≠ "")
  | Json.arr _ => true
  | Json.obj _ => true

/-- Truthiness of a possibly-`undefined` value (`undefined` is falsy). -/
def truthyOpt : Option Json → Bool
  | some v => truthy v
  | none => false

/-- `typeof v === 'string'` for a possibly-`undefined` value. -/
def isStrOpt : Option Json → Bool
  | some (Json.str _) => true
  | _ => false

/-- `typeof v === 'number'` for a possibly-`undefined` value. -/
def isNumOpt : Option Json → Bool
  | some (Json.num _) => true
  | _ => false

/-- The numeric payload of a value known to be a number (`0` otherwise;
only used under a `typeof === 'number'` guard). -/
def numOf : Option Json → Rat
  | some (Json.num q) => q
  | _ => 0

/-- The JavaScript defaulting idiom `a || b`: the value itself when truthy,
else the default. -/
def jsOr (v : Option Json) (dflt : Json) : Json :=
  match v with
  | some x => if truthy x then x else dflt
  | none => dflt

/-- Decimal digits of the fractional part `r / d` (fuel-bounded). -/
def decDigits : Nat → Nat → Nat → List Char
  | 0, _, _ => []
  | _ + 1, 0, _ => []
  | f + 1, r, d => Char.ofNat (48 + (r * 10) / d) :: decDigits f ((r * 10) % d) d

/-- JavaScript number-to-string conversion, modelled on rationals (decimal
expansion, up to 30 fractional digits; exact on every number appearing in
this development). -/
def jsNumToString (q : Rat) : String :=
  let sign := if q < 0 then "-" else ""
  let a := q.num.natAbs
  let d := q.den
  let r := a % d
  sign ++ toString (a / d) ++ (if r = 0 then "" else "." ++ String.mk (decDigits 30 r d))

/-- JavaScript `String(v)` on a JSON value.  Arrays stringify as their
elements joined by `,` (with `null` elements rendering empty), objects as
`"[object Object]"`. -/
def jsToString : Json → String
  | Json.null => "null"
  | Json.bool true => "true"
  | Json.bool false => "false"
  | Json.num q => jsNumToString q
  | Json.str s => s
  | Json.arr xs => jsArrJoin xs
  | Json.obj _ => "[object Object]"
where
  jsArrJoin : List Json → String
  | [] => ""
  | [Json.null] => ""
  | [x] => jsToString x
  | Json.null :: xs => "," ++ jsArrJoin xs
  | x :: xs => jsToString x ++ "," ++ jsArrJoin xs

/-- A validated question produced by `generateQuestionsWithGemini`
(`src/lib/gemini.ts`).  `question` is the trimmed source string, `options`
the four stringified option values, `correct` the (unchanged) numeric
index; `explanation` and `subject` keep the source values (arbitrary JSON,
defaulted to the empty string when absent or falsy, mirroring `|| ''`). -/
structure QuestionData where
  question : String
  options : List String
  correct : Rat
  explanation : Json
  subject : Json
deriving Repr, DecidableEq

/-- Check on `q.question` (gemini.ts lines 176-179):
`!q.question || typeof q.question !== 'string'` skips the element. -/
def questionOk (q : Json) : Bool :=
  truthyOpt (jget q "question") && isStrOpt (jget q "question")

/-- Check on `q.options` (gemini.ts lines 181-184):
`!Array.isArray(q.options) || q.options.length !== 4` skips the element. -/
def optionsOk (q : Json) : Bool :=
  match jget q "options" with
  | some (Json.arr xs) => decide (xs.length = 4)
  | _ => false

/-- Check on `q.correct` (gemini.ts lines 186-189):
`typeof q.correct !== 'number' || q.correct < 0 || q.correct >= 4`
skips the element. -/
def correctOk (q : Json) : Bool :=
  match jget q "correct" with
  | some (Json.num n) => decide (0 ≤ n) && decide (n < 4)
  | _ => false

/-- Conjunction of the three per-element checks. -/
def passes (q : Json) : Bool :=
  questionOk q && optionsOk q && correctOk q

/-- Whitespace for JavaScript `String.prototype.trim` (the ASCII
whitespace characters plus NBSP, BOM and the Unicode line separators; the
inputs in this development only contain ASCII whitespace). -/
def isJsWs (c : Char) : Bool :=
  c = ' ' || c = '\t' || c = '\n' || c = '\r' ||
  c.toNat = 11 || c.toNat = 12 || c.toNat = 160 ||
  c.toNat = 8232 || c.toNat = 8233 || c.toNat = 65279

/-- JavaScript `s.trim()`: drop leading and trailing whitespace. -/
def jsTrim (s : String) : String :=
  String.mk (((s.data.dropWhile isJsWs).reverse.dropWhile isJsWs).reverse)

/-- The string payload of a field known to be a string (used only under
`questionOk`). -/
def jgetStrD (q : Json) (k : String) : String :=
  match jget q k with
  | some (Json.str s) => s
  | _ => ""

/-- The array payload of a field known to be an array (used only under
`optionsOk`). -/
def jgetArrD (q : Json) (k : String) : List Json :=
  match jget q k with
  | some (Json.arr xs) => xs
  | _ => []

/-- Normalization of a passing element (gemini.ts lines 191-202): options
coerced to strings via `String(...)`, question trimmed, `explanation` and
`subject` defaulted with `|| ''`. -/
def normalizeQ (q : Json) : QuestionData :=
  { question := jsTrim (jgetStrD q "question")
  , options := (jgetArrD q "options").map (fun o =>
      match o with
      | Json.str s => s
      | v => jsToString v)
  , correct := numOf (jget q "correct")
  , explanation := jsOr (jget q "explanation") (Json.str "")
  , subject := jsOr (jget q "subject") (Json.str "") }

/-- The validation loop of gemini.ts lines 170-203: per-element checks
with `continue` on failure, collecting normalized survivors in order. -/
def validateLoop : List Json → List QuestionData
  | [] => []
  | q :: rest =>
    if questionOk q then
      if optionsOk q then
        if correctOk q then normalizeQ q :: validateLoop rest
        else validateLoop rest
      else validateLoop rest
    else validateLoop rest

/-- Failure modes of the extraction/validation stage of
`generateQuestionsWithGemini` (the thrown `Error`s of gemini.ts
lines 160-207). -/
inductive GenError where
  | parseFailed
  | notAnArray
  | noValidQuestions
deriving Repr, DecidableEq

/-- gemini.ts lines 166-207: reject non-arrays, run the validation loop,
and fail the whole batch when no element survives. -/
def validateQuestions : Json → Except GenError (List QuestionData)
  | Json.arr qs =>
    if (validateLoop qs).length = 0 then Except.error GenError.noValidQuestions
    else Except.ok (validateLoop qs)
  | _ => Except.error GenError.notAnArray

/-- Index of the first occurrence of a character. -/
def firstIdx (c : Char) : List Char → Option Nat
  | [] => none
  | a :: as => if a = c then some 0 else (firstIdx c as).map (· + 1)

/-- Index of the last occurrence of a character. -/
def lastIdx (c : Char) (cs : List Char) : Option Nat :=
  match firstIdx c cs.reverse with
  | some k => some (cs.length - 1 - k)
  | none => none

/-- The regex extraction `generatedText.match(/\[[\s\S]*\]/)` of gemini.ts
line 156: the greedy match runs from the first `[` to the last `]`
(a match exists iff some `]` occurs after the first `[`). -/
def extractSpan (cs : List Char) : Option (List Char) :=
  match firstIdx '[' cs, lastIdx ']' cs with
  | some i, some j => if i < j then some ((cs.drop i).take (j - i + 1)) else none
  | _, _ => none

/-- gemini.ts line 157: the matched span when present, else the whole raw
text. -/
def extractedText (raw : String) : List Char :=
  match extractSpan raw.data with
  | some s => s
  | none => raw.data

/-! ### A model of `JSON.parse`

A fuel-bounded recursive-descent parser producing `Json` values, faithful
to the JSON grammar accepted by `JSON.parse` (whitespace = space, tab, LF,
CR; strings with the standard escapes; numbers with optional fraction and
exponent; no trailing commas; no trailing garbage).  The only relaxation:
leading zeros in numeric literals are not rejected (no input in this
development contains one). -/

/-- The four JSON whitespace characters. -/
def isWsChar (c : Char) : Bool :=
  c = ' ' || c = '\t' || c = '\n' || c = '\r'

/-- Drop leading JSON whitespace. -/
def skipWs : List Char → List Char
  | [] => []
  | c :: cs => if isWsChar c then skipWs cs else c :: cs

/-- Value of a decimal digit character, if it is one. -/
def digitVal (c : Char) : Option Nat :=
  if '0' ≤ c ∧ c ≤ '9' then some (c.toNat - 48) else none

/-- Value of a hexadecimal digit character, if it is one. -/
def hexVal (c : Char) : Option Nat :=
  if '0' ≤ c ∧ c ≤ '9' then some (c.toNat - 48)
  else if 'a' ≤ c ∧ c ≤ 'f' then some (c.toNat - 87)
  else if 'A' ≤ c ∧ c ≤ 'F' then some (c.toNat - 55)
  else none

/-- Longest leading run of decimal digits, with the rest of the input. -/
def readDigits : List Char → List Nat × List Char
  | [] => ([], [])
  | c :: cs =>
    match digitVal c with
    | some d =>
      match readDigits cs with
      | (ds, r) => (d :: ds, r)
    | none => ([], c :: cs)

/-- A digit list as a natural number. -/
def digitsToNat (ds : List Nat) : Nat :=
  ds.foldl (fun a d => a * 10 + d) 0

/-- Optional fractional part: `'.'` must be followed by at least one
digit. Returns the fraction digits (empty when no `'.'` is present). -/
def parseFrac (cs : List Char) : Option (List Nat × List Char) :=
  match cs with
  | '.' :: r =>
    match readDigits r with
    | ([], _) => none
    | (ds, r2) => some (ds, r2)
  | _ => some ([], cs)

/-- Optional exponent part `e`/`E` with optional sign. -/
def parseExp (cs : List Char) : Option (Int × List Char) :=
  match cs with
  | [] => some (0, [])
  | c :: r =>
    if c = 'e' ∨ c = 'E' then
      match r with
      | '+' :: t =>
        match readDigits t with
        | ([], _) => none
        | (ds, r2) => some ((digitsToNat ds : Int), r2)
      | '-' :: t =>
        match readDigits t with
        | ([], _) => none
        | (ds, r2) => some (-(digitsToNat ds : Int), r2)
      | t =>
        match readDigits t with
        | ([], _) => none
        | (ds, r2) => some ((digitsToNat ds : Int), r2)
    else some (0, c :: r)

/-- The rational denoted by sign / integer digits / fraction digits /
exponent. -/
def ratOfParts (neg : Bool) (ids fds : List Nat) (e : Int) : Rat :=
  let den0 : Nat := 10 ^ fds.length
  let num0 : Nat := digitsToNat ids * den0 + digitsToNat fds
  let num1 : Nat := if 0 ≤ e then num0 * 10 ^ e.toNat else num0
  let den1 : Nat := if 0 ≤ e then den0 else den0 * 10 ^ (-e).toNat
  mkRat (if neg then -(num1 : Int) else (num1 : Int)) den1

/-- A JSON numeric literal. -/
def parseNumber (cs : List Char) : Option (Rat × List Char) :=
  let (neg, cs1) :=
    match cs with
    | '-' :: r => (true, r)
    | _ => (false, cs)
  match readDigits cs1 with
  | ([], _) => none
  | (ids, cs2) =>
    match parseFrac cs2 with
    | none => none
    | some (fds, cs3) =>
      match parseExp cs3 with
      | none => none
      | some (e, cs4) => some (ratOfParts neg ids fds e, cs4)

/-- Body of a JSON string literal, after the opening quote (fuel-bounded;
standard escapes, `\uXXXX` via `Char.ofNat`). -/
def parseStrBody : Nat → List Char → Option (String × List Char)
  | 0, _ => none
  | _ + 1, [] => none
  | f + 1, c :: cs =>
    if c = '"' then some ("", cs)
    else if c = '\\' then
      match cs with
      | [] => none
      | e :: cs' =>
        let esc : Option (Char × List Char) :=
          if e = '"' then some ('"', cs')
          else if e = '\\' then some ('\\', cs')
          else if e = '/' then some ('/', cs')
          else if e = 'b' then some (Char.ofNat 8, cs')
          else if e = 'f' then some (Char.ofNat 12, cs')
          else if e = 'n' then some ('\n', cs')
          else if e = 'r' then some ('\r', cs')
          else if e = 't' then some ('\t', cs')
          else if e = 'u' then
            match cs' with
            | h1 :: h2 :: h3 :: h4 :: rest =>
              match hexVal h1, hexVal h2, hexVal h3, hexVal h4 with
              | some a, some b, some x, some y =>
                some (Char.ofNat (((a * 16 + b) * 16 + x) * 16 + y), rest)
              | _, _, _, _ => none
            | _ => none
          else none
        match esc with
        | none => none
        | some (ch, rest) =>
          match parseStrBody f rest with
          | none => none
          | some (s, r) => some (String.mk (ch :: s.data), r)
    else
      match parseStrBody f cs with
      | none => none
      | some (s, r) => some (String.mk (c :: s.data), r)

mutual

/-- A JSON value (fuel-bounded recursive descent). -/
def parseVal : (fuel : Nat) → List Char → Option (Json × List Char)
  | 0, _ => none
  | f + 1, cs =>
    match skipWs cs with
    | [] => none
    | c :: rest =>
      if c = '\x7b' then
        match parseObjItems f rest with
        | some (kvs, r) => some (Json.obj kvs, r)
        | none => none
      else if c = '[' then
        match parseArrItems f rest with
        | some (vs, r) => some (Json.arr vs, r)
        | none => none
      else if c = '"' then
        match parseStrBody (rest.length + 1) rest with
        | some (s, r) => some (Json.str s, r)
        | none => none
      else if c = 't' then
        match rest with
        | 'r' :: 'u' :: 'e' :: r => some (Json.bool true, r)
        | _ => none
      else if c = 'f' then
        match rest with
        | 'a' :: 'l' :: 's' :: 'e' :: r => some (Json.bool false, r)
        | _ => none
      else if c = 'n' then
        match rest with
        | 'u' :: 'l' :: 'l' :: r => some (Json.null, r)
        | _ => none
      else
        match parseNumber (c :: rest) with
        | some (q, r) => some (Json.num q, r)
        | none => none

termination_by structural fuel _cs => fuel

/-- Array items, entered just after `[`. -/
def parseArrItems : (fuel : Nat) → List Char → Option (List Json × List Char)
  | 0, _ => none
  | f + 1, cs =>
    match skipWs cs with
    | ']' :: r => some ([], r)
    | cs' =>
      match parseVal f cs' with
      | none => none
      | some (v, r) =>
        match parseArrTail f r with
        | none => none
        | some (vs, r2) => some (v :: vs, r2)

termination_by structural fuel _cs => fuel

/-- Array continuation: `]` closes, `,` demands another item. -/
def parseArrTail : (fuel : Nat) → List Char → Option (List Json × List Char)
  | 0, _ => none
  | f + 1, cs =>
    match skipWs cs with
    | ']' :: r => some ([], r)
    | ',' :: r =>
      match parseVal f r with
      | none => none
      | some (v, r1) =>
        match parseArrTail f r1 with
        | none => none
        | some (vs, r2) => some (v :: vs, r2)
    | _ => none

termination_by structural fuel _cs => fuel

/-- Object members, entered just after the opening brace. -/
def parseObjItems : (fuel : Nat) → List Char → Option (List (String × Json) × List Char)
  | 0, _ => none
  | f + 1, cs =>
    match skipWs cs with
    | '\x7d' :: r => some ([], r)
    | cs' =>
      match parseMember f cs' with
      | none => none
      | some (kv, r) =>
        match parseObjTail f r with
        | none => none
        | some (kvs, r2) => some (kv :: kvs, r2)

termination_by structural fuel _cs => fuel

/-- One `"key" : value` member. -/
def parseMember : (fuel : Nat) → List Char → Option ((String × Json) × List Char)
  | 0, _ => none
  | f + 1, cs =>
    match skipWs cs with
    | '"' :: r =>
      match parseStrBody (r.length + 1) r with
      | none => none
      | some (k, r1) =>
        match skipWs r1 with
        | ':' :: r2 =>
          match parseVal f r2 with
          | none => none
          | some (v, r3) => some ((k, v), r3)
        | _ => none
    | _ => none

termination_by structural fuel _cs => fuel

/-- Object continuation: closing brace ends, `,` demands another member. -/
def parseObjTail : (fuel : Nat) → List Char → Option (List (String × Json) × List Char)
  | 0, _ => none
  | f + 1, cs =>
    match skipWs cs with
    | '\x7d' :: r => some ([], r)
    | ',' :: r =>
      match parseMember f r with
      | none => none
      | some (kv, r1) =>
        match parseObjTail f r1 with
        | none => none
        | some (kvs, r2) => some (kv :: kvs, r2)
    | _ => none

termination_by structural fuel _cs => fuel
end

/-- Decidable equality of `Except` results (not provided by the core
library). -/
instance instDecEqExcept {ε α : Type} [DecidableEq ε] [DecidableEq α] :
    DecidableEq (Except ε α)
  | Except.error a, Except.error b =>
    match decEq a b with
    | isTrue h => isTrue (by rw [h])
    | isFalse h => isFalse (fun hh => h (Except.error.inj hh))
  | Except.error _, Except.ok _ => isFalse (fun h => Except.noConfusion h)
  | Except.ok _, Except.error _ => isFalse (fun h => Except.noConfusion h)
  | Except.ok a, Except.ok b =>
    match decEq a b with
    | isTrue h => isTrue (by rw [h])
    | isFalse h => isFalse (fun hh => h (Except.ok.inj hh))

/-- `JSON.parse` on a character list: one value, then only whitespace. -/
def parseJsonChars (cs : List Char) : Option Json :=
  match parseVal (2 * cs.length + 4) cs with
  | some (v, r) => if (skipWs r).isEmpty then some v else none
  | none => none

/-- The extraction + parse + validate pipeline of
`generateQuestionsWithGemini`, gemini.ts lines 152-210: extract the
bracketed span (or fall back to the whole text), `JSON.parse` it (syntax
failure aborts with `parseFailed`), then validate. -/
def processGeminiText (raw : String) : Except GenError (List QuestionData) :=
  match parseJsonChars (extractedText raw) with
  | none => Except.error GenError.parseFailed
  | some j => validateQuestions j

/-! ### AI-client failure messages and the HTTP status mapping

`generateQuestionsWithGemini` classifies a non-OK upstream HTTP response
by producing an `Error` whose message depends on the upstream status
(gemini.ts lines 128-141).  The `/api/generate` handler catches the error
and maps the *message text* back to an HTTP status for the caller
(generate.ts lines 95-126). -/

/-- `p.isPrefixOf`-style check on character lists. -/
def startsWithChars : List Char → List Char → Bool
  | [], _ => true
  | _ :: _, [] => false
  | p :: ps, c :: cs => p = c && startsWithChars ps cs

/-- Substring occurrence check on character lists. -/
def hasSubChars (pat : List Char) : List Char → Bool
  | [] => startsWithChars pat []
  | c :: cs => startsWithChars pat (c :: cs) || hasSubChars pat cs

/-- JavaScript `msg.includes(pat)`. -/
def jsIncludes (msg pat : String) : Bool :=
  hasSubChars pat.data msg.data

/-- The error message thrown for a non-OK upstream response
(gemini.ts lines 132-140): 401 and 429 have dedicated messages, any
status ≥ 500 yields the service-unavailable message, and other non-2xx
statuses yield a generic message carrying the status code and text. -/
def geminiHttpErrorMessage (status : Nat) (statusText : String) : String :=
  if status = 401 then "Invalid Gemini API key"
  else if status = 429 then "API quota exceeded. Please try again later."
  else if 500 ≤ status then "Gemini API service unavailable. Please try again later."
  else "Gemini API error: " ++ toString status ++ " " ++ statusText

/-- The catch-block of the `/api/generate` handler (generate.ts lines
95-126): the HTTP status returned to the caller, chosen by substring
tests on the caught error's message. -/
def generateErrorStatus (msg : String) : Nat :=
  if jsIncludes msg "API key" then 401
  else if jsIncludes msg "quota" || jsIncludes msg "limit" then 429
  else if jsIncludes msg "network" || jsIncludes msg "fetch" then 503
  else 500

/-! ### The document store and the `/api/questions` handlers

The Mongo database is modelled as explicit lists of documents per
collection, with a counter generating fresh identifiers (standing in for
`ObjectId`s; `new ObjectId(s)` on a well-formed identifier string is
modelled as the string itself) and a clock supplying `createdAt`
(`new Date()`) values.  The handlers below embed `handlePost`,
`handleDelete` and the step-agnostic branch of `handleGet` from
`src/pages/api/questions.ts`. -/

/-- A document of the `questions` collection, as inserted by `handlePost`
(questions.ts lines 217-226).  `question`, `explanation`, `subject` and
`difficulty` hold the raw body values (arbitrary JSON — the handler never
checks their types beyond truthiness of `question`); `options` is the
stored JSON text. -/
structure QuestionDoc where
  id : Nat
  question : Json
  options : String
  correct : Rat
  explanation : Json
  subject : Json
  difficulty : Json
  createdAt : Nat
  qtype : String
deriving Repr, DecidableEq

/-- A document of the `scores` collection, as inserted by `handlePost`
(questions.ts lines 165-172).  `percentage` and `step` hold whatever the
`||` defaulting produced; `duration` is passed through unchecked. -/
structure ScoreDoc where
  id : Nat
  score : Rat
  total : Rat
  percentage : Json
  duration : Option Json
  step : Json
  createdAt : Nat
deriving Repr, DecidableEq

/-- The document store: one list per collection (in insertion order), a
fresh-identifier counter and a clock.  Step-collection documents are
free-form JSON paired with their generated identifier. -/
structure Store where
  step1 : List (Nat × Json)
  step2 : List (Nat × Json)
  step3 : List (Nat × Json)
  questions : List QuestionDoc
  scores : List ScoreDoc
  nextId : Nat
  now : Nat
deriving Repr, DecidableEq

/-- The empty store. -/
def emptyStore : Store :=
  { step1 := [], step2 := [], step3 := [], questions := [], scores := []
  , nextId := 0, now := 0 }

/-- Result of `handlePost`: a 400 with its message, or a 201 echoing the
inserted document. -/
inductive PostResp where
  | badRequest (msg : String)
  | createdScore (doc : ScoreDoc)
  | createdQuestion (doc : QuestionDoc)
deriving Repr, DecidableEq

/-- HTTP status of a `handlePost` response. -/
def postStatus : PostResp → Nat
  | PostResp.badRequest _ => 400
  | PostResp.createdScore _ => 201
  | PostResp.createdQuestion _ => 201

/-- `body.type === 'score'` (questions.ts line 159). -/
def isScoreType (body : Json) : Bool :=
  match jget body "type" with
  | some (Json.str s) => s = "score"
  | _ => false

/-- The score document built by questions.ts lines 165-172 for a body
whose `score` and `total` passed the `typeof === 'number'` checks. -/
def mkScoreDoc (body : Json) (st : Store) (s t : Rat) : ScoreDoc :=
  { id := st.nextId
  , score := s
  , total := t
  , percentage := jsOr (jget body "percentage") (Json.num (Rat.mul (Rat.div s t) 100))
  , duration := jget body "duration"
  , step := jsOr (jget body "step") (Json.str "mixed")
  , createdAt := st.now }

/-- Escape one character for a JSON string literal. -/
def escChar (c : Char) : List Char :=
  if c = '"' then ['\\', '"']
  else if c = '\\' then ['\\', '\\']
  else if c = '\n' then ['\\', 'n']
  else if c = '\r' then ['\\', 'r']
  else if c = '\t' then ['\\', 't']
  else if c.toNat = 8 then ['\\', 'b']
  else if c.toNat = 12 then ['\\', 'f']
  else if c.toNat < 32 then
    ['\\', 'u', '0', '0',
     Char.ofNat (if c.toNat / 16 < 10 then 48 + c.toNat / 16 else 87 + c.toNat / 16),
     Char.ofNat (if c.toNat % 16 < 10 then 48 + c.toNat % 16 else 87 + c.toNat % 16)]
  else [c]

/-- A JSON string literal for `s`. -/
def escapeJsonStr (s : String) : String :=
  "\"" ++ String.mk (s.data.map escChar).flatten ++ "\""

/-- JavaScript `JSON.stringify` on a JSON value. -/
def jsonStringify : Json → String
  | Json.null => "null"
  | Json.bool true => "true"
  | Json.bool false => "false"
  | Json.num q => jsNumToString q
  | Json.str s => escapeJsonStr s
  | Json.arr xs => "[" ++ stringifyItems xs ++ "]"
  | Json.obj kvs => "\x7b" ++ stringifyFields kvs ++ "\x7d"
where
  stringifyItems : List Json → String
  | [] => ""
  | [x] => jsonStringify x
  | x :: xs => jsonStringify x ++ "," ++ stringifyItems xs
  stringifyFields : List (String × Json) → String
  | [] => ""
  | [(k, v)] => escapeJsonStr k ++ ":" ++ jsonStringify v
  | (k, v) :: kvs => escapeJsonStr k ++ ":" ++ jsonStringify v ++ "," ++ stringifyFields kvs

/-- The `parsedOptions` computation of questions.ts lines 193-199: a
string body field is `JSON.parse`d (parse failure is caught and becomes a
400), any other value is used as-is. -/
def parsedOptionsOf (body : Json) : Option Json :=
  match jget body "options" with
  | some (Json.str s) => parseJsonChars s.data
  | some v => some v
  | none => none

/-- The question document built by questions.ts lines 217-226: raw body
values with `|| ''` / `|| 'Medium'` defaulting, options kept as the given
JSON text or re-serialized. -/
def mkQuestionDoc (body : Json) (st : Store) : QuestionDoc :=
  { id := st.nextId
  , question :=
      match jget body "question" with
      | some v => v
      | none => Json.null
  , options :=
      match jget body "options" with
      | some (Json.str s) => s
      | some v => jsonStringify v
      | none => jsonStringify Json.null
  , correct := numOf (jget body "correct")
  , explanation := jsOr (jget body "explanation") (Json.str "")
  , subject := jsOr (jget body "subject") (Json.str "")
  , difficulty := jsOr (jget body "difficulty") (Json.str "Medium")
  , createdAt := st.now
  , qtype := "ai-generated" }

/-- `handlePost` of `src/pages/api/questions.ts` (lines 155-239): the
score branch checks `typeof body.score/total === 'number'` and inserts a
score document; the question branch checks truthiness of `question` and
`options` and `typeof body.correct === 'number'`, parses/validates the
options array (JSON array of at least 2 items), range-checks `correct`
against the parsed length, and inserts a question document. -/
def handlePost (body : Json) (st : Store) : Store × PostResp :=
  if isScoreType body then
    match jget body "score", jget body "total" with
    | some (Json.num s), some (Json.num t) =>
      ({ st with scores := st.scores ++ [mkScoreDoc body st s t], nextId := st.nextId + 1 },
       PostResp.createdScore (mkScoreDoc body st s t))
    | _, _ => (st, PostResp.badRequest "Score and total are required for score submission")
  else if !truthyOpt (jget body "question") || !truthyOpt (jget body "options")
      || !isNumOpt (jget body "correct") then
    (st, PostResp.badRequest "Question, options, and correct answer index are required")
  else
    match parsedOptionsOf body with
    | some (Json.arr opts) =>
      if opts.length < 2 then
        (st, PostResp.badRequest "Options must be a valid JSON array of at least 2 items")
      else if numOf (jget body "correct") < 0
          ∨ (opts.length : Rat) ≤ numOf (jget body "correct") then
        (st, PostResp.badRequest "Correct answer index out of range")
      else
        ({ st with questions := st.questions ++ [mkQuestionDoc body st], nextId := st.nextId + 1 },
         PostResp.createdQuestion (mkQuestionDoc body st))
    | _ => (st, PostResp.badRequest "Options must be a valid JSON array of at least 2 items")

/-- Result of `handleDelete`: 400 or 200 with the deleted count. -/
inductive DeleteResp where
  | badRequest (msg : String)
  | deleted (count : Nat)
deriving Repr, DecidableEq

/-- HTTP status of a `handleDelete` response. -/
def deleteStatus : DeleteResp → Nat
  | DeleteResp.badRequest _ => 400
  | DeleteResp.deleted _ => 200

/-- Whether a stored document identifier occurs in the request's `ids`
array (`new ObjectId(id)` is modelled as the identifier string itself;
document identifiers render as their decimal string). -/
def idMatches (ids : List Json) (docId : Nat) : Bool :=
  ids.any (fun j =>
    match j with
    | Json.str s => s = toString docId
    | _ => false)

/-- `handleDelete` of `src/pages/api/questions.ts` (lines 241-261):
400 when `ids` is missing, not an array, or empty; otherwise
`deleteMany` on the `questions` collection and a 200 reporting
`deletedCount`. -/
def handleDelete (body : Json) (st : Store) : Store × DeleteResp :=
  match jget body "ids" with
  | some (Json.arr ids) =>
    if ids.length = 0 then (st, DeleteResp.badRequest "Array of question IDs is required")
    else
      ({ st with questions := st.questions.filter (fun d => !idMatches ids d.id) },
       DeleteResp.deleted (st.questions.filter (fun d => idMatches ids d.id)).length)
  | _ => (st, DeleteResp.badRequest "Array of question IDs is required")

/-- A transformed step question as returned by the GET listing
(questions.ts lines 123-139): raw document fields with `||` defaulting,
options re-serialized as JSON text after dropping options with no
positive `.length`. -/
structure ListedQuestion where
  id : String
  question : Json
  options : String
  correct : Json
  explanation : Json
  subject : Json
  difficulty : Json
  questionNumber : Option Json
  step : String
deriving Repr, DecidableEq

/-- JavaScript `opt.length > 0` where `opt` may be any value: strings and
arrays have a `length`; on every other value `.length` is `undefined` and
the comparison is false. -/
def jsLengthPos : Json → Bool
  | Json.str s => decide (0 < s.length)
  | Json.arr xs => decide (0 < xs.length)
  | _ => false

/-- The per-document transformation of the mixed-mode GET listing
(questions.ts lines 123-139). -/
def transformStepQ (stepLabel : String) (d : Nat × Json) : ListedQuestion :=
  { id := toString d.1
  , question := jsOr (jget d.2 "questionText") (Json.str "")
  , options := jsonStringify (Json.arr
      (([ jsOr (jget d.2 "optionA") (Json.str "")
        , jsOr (jget d.2 "optionB") (Json.str "")
        , jsOr (jget d.2 "optionC") (Json.str "")
        , jsOr (jget d.2 "optionD") (Json.str "")
        , jsOr (jget d.2 "optionE") (Json.str "") ]).filter jsLengthPos))
  , correct := jsOr (jget d.2 "correctAnswer") (Json.num 0)
  , explanation := jsOr (jget d.2 "explanation") (Json.str "")
  , subject := jsOr (jget d.2 "subject") (Json.str ("Step " ++ stepLabel))
  , difficulty := jsOr (jget d.2 "difficulty") (Json.str "Medium")
  , questionNumber := jget d.2 "questionNumber"
  , step := stepLabel }

/-- Mongo `.limit(n)` (`n = 0` means unlimited). -/
def mongoLimit (n : Nat) (xs : List (Nat × Json)) : List (Nat × Json) :=
  if n = 0 then xs else xs.take n

/-- The step-agnostic ("mixed mode") branch of `handleGet`
(questions.ts lines 111-150): read each of the three step collections
with a per-collection limit of `Math.ceil(limit/3)` (default 20),
transform, concatenate, and apply the final `slice(0, limit)`.

The source additionally sorts each collection by `questionNumber` and
then shuffles the concatenation with a random comparator; both are
permutations with no determinism contract (spec §9), so the model returns
the un-shuffled concatenation in stored order, and every property proved
about this listing is invariant under permuting it. -/
def getNoStepDocs (lim : Option Nat) (st : Store) : List ListedQuestion :=
  let perColl : Nat :=
    match lim with
    | some l => (l + 2) / 3
    | none => 20
  let base :=
    (mongoLimit perColl st.step1).map (transformStepQ "1")
      ++ (mongoLimit perColl st.step2).map (transformStepQ "2")
      ++ (mongoLimit perColl st.step3).map (transformStepQ "3")
  match lim with
  | some l => base.take l
  | none => base

/-! ### Concrete inputs used to instantiate the theorems -/

/-- A raw AI text whose array has one passing and one failing element. -/
def c1raw : String :=
  "[\x7b\"question\":\"Q\",\"options\":[\"a\",\"b\",\"c\",\"d\"],\"correct\":0\x7d,\x7b\"question\":\"\"\x7d]"

/-- The candidate array `JSON.parse` extracts from `c1raw`. -/
def c1qs : List Json :=
  [ Json.obj [("question", Json.str "Q"),
      ("options", Json.arr [Json.str "a", Json.str "b", Json.str "c", Json.str "d"]),
      ("correct", Json.num 0)]
  , Json.obj [("question", Json.str "")] ]

/-- The raw text of the spec's bracketed-span example (§8). -/
def c2raw : String :=
  "garbage [ \x7b\"question\":\"Q\",\"options\":[\"a\",\"b\",\"c\",\"d\"],\"correct\":1\x7d ] trailing"

/-- The bracketed span inside `c2raw`. -/
def c2span : String :=
  "[ \x7b\"question\":\"Q\",\"options\":[\"a\",\"b\",\"c\",\"d\"],\"correct\":1\x7d ]"

/-- A candidate element whose `options` array has length 3. -/
def c3opt3 : Json :=
  Json.obj [("question", Json.str "Q"),
    ("options", Json.arr [Json.str "a", Json.str "b", Json.str "c"]),
    ("correct", Json.num 1)]

/-- A candidate element with 4 options but `correct = 4`. -/
def c3cor4 : Json :=
  Json.obj [("question", Json.str "Q"),
    ("options", Json.arr [Json.str "a", Json.str "b", Json.str "c", Json.str "d"]),
    ("correct", Json.num 4)]

/-- A raw AI text whose only element has a whitespace-only question. -/
def c4rawA : String :=
  "[\x7b\"question\":\" \",\"options\":[\"a\",\"b\",\"c\",\"d\"],\"correct\":0\x7d]"

/-- A raw AI text whose only element has the non-integer index 1.5. -/
def c4rawB : String :=
  "[\x7b\"question\":\"Q\",\"options\":[\"a\",\"b\",\"c\",\"d\"],\"correct\":1.5\x7d]"

/-- A well-formed question-creation request body. -/
def c5body : Json :=
  Json.obj [("question", Json.str "Roundtrip?"),
    ("options", Json.str "[\"a\",\"b\",\"c\",\"d\"]"),
    ("correct", Json.num 1)]

/-- A well-formed question-creation request body with two options. -/
def c7body : Json :=
  Json.obj [("question", Json.str "Qw"),
    ("options", Json.str "[\"x\",\"y\"]"),
    ("correct", Json.num 1)]

/-- A stored AI-generated question document with identifier 0. -/
def c8doc0 : QuestionDoc :=
  { id := 0, question := Json.str "A", options := "[\"a\",\"b\"]", correct := 0
  , explanation := Json.str "", subject := Json.str "", difficulty := Json.str "Medium"
  , createdAt := 0, qtype := "ai-generated" }

/-- A stored AI-generated question document with identifier 1. -/
def c8doc1 : QuestionDoc :=
  { id := 1, question := Json.str "B", options := "[\"a\",\"b\"]", correct := 1
  , explanation := Json.str "", subject := Json.str "", difficulty := Json.str "Medium"
  , createdAt := 0, qtype := "ai-generated" }

/-- A store holding two AI-generated question documents. -/
def c8store : Store :=
  { emptyStore with questions := [c8doc0, c8doc1], nextId := 2 }

/-- A delete request naming only an identifier absent from `c8store`. -/
def c8bodyMissing : Json :=
  Json.obj [("ids", Json.arr [Json.str "99"])]

/-- A score submission violating `0 <= score`. -/
def c9body : Json :=
  Json.obj [("type", Json.str "score"), ("score", Json.num (-1)), ("total", Json.num 10)]

/-- The spec's score submission example: `score=7, total=10`. -/
def c9wbody : Json :=
  Json.obj [("type", Json.str "score"), ("score", Json.num 7), ("total", Json.num 10)]

/-- A candidate element whose `question` is the empty string. -/
def c10q : Json :=
  Json.obj [("question", Json.str ""),
    ("options", Json.arr [Json.str "a", Json.str "b", Json.str "c", Json.str "d"]),
    ("correct", Json.num 0)]

/-- A fully valid candidate element. -/
def c4q : Json :=
  Json.obj [("question", Json.str "Q4"),
    ("options", Json.arr [Json.str "a", Json.str "b", Json.str "c", Json.str "d"]),
    ("correct", Json.num 2)]

/-! ### Shared lemmas about the validator -/

/-- The validation loop keeps exactly the elements passing all three
checks, normalized, in source order. -/
theorem validateLoop_eq_filterMap (qs : List Json) :
    validateLoop qs = (qs.filter passes).map normalizeQ := by
  induction qs with
  | nil => rfl
  | cons q rest ih =>
    cases h1 : questionOk q <;> cases h2 : optionsOk q <;> cases h3 : correctOk q <;>
      simp [validateLoop, passes, h1, h2, h3, ih, List.filter_cons]

/-- C1: for every raw AI text whose extracted JSON parses to an array of
candidate objects, the validator returns exactly the sub-sequence of
elements passing all three per-element checks (normalized), in source
order — an individual element's failure only skips that element.  (When
*no* element passes, the batch instead fails with the no-valid-questions
error: that case is claim C3's third conjunct, so it is assumed away
here.) -/
theorem c1_validator_returns_passing_subsequence (raw : String) (qs : List Json)
    (hparse : parseJsonChars (extractedText raw) = some (Json.arr qs))
    (hsome : (qs.filter passes).length ≠ 0) :
    processGeminiText raw = Except.ok ((qs.filter passes).map normalizeQ) := by
  have hstep : processGeminiText raw = validateQuestions (Json.arr qs) := by
    unfold processGeminiText
    rw [hparse]
  rw [hstep]
  simp only [validateQuestions]
  rw [validateLoop_eq_filterMap]
  have hlen : ¬ ((qs.filter passes).map normalizeQ).length = 0 := by
    simpa using hsome
  rw [if_neg hlen]

/-- Witness for C1: a concrete two-element array in which the second
element fails its checks; the pipeline returns exactly the normalized
first element. -/
theorem c1_validator_returns_passing_subsequence_witness :
    processGeminiText c1raw = Except.ok ((c1qs.filter passes).map normalizeQ) :=
  c1_validator_returns_passing_subsequence c1raw c1qs rfl (by decide)

/-- C2: on the spec's example raw text, the first bracketed span is
extracted, parsed, and yields exactly one record with `correct = 1` and
the four string options. -/
theorem c2_bracketed_span_is_extracted_and_validated :
    extractSpan c2raw.data = some c2span.data
  ∧ processGeminiText c2raw =
      Except.ok [{ question := "Q", options := ["a", "b", "c", "d"], correct := 1
                 , explanation := Json.str "", subject := Json.str "" }] :=
  ⟨rfl, rfl⟩

/-- C3: an element whose `options` has length 3 is skipped; an element
whose `correct` is 4 is skipped (whatever its options); and a parsed
array in which no element survives makes the whole batch fail with the
no-valid-questions error instead of returning an empty sequence. -/
theorem c3_skipped_elements_and_empty_batch_failure :
    (∀ q rest xs, jget q "options" = some (Json.arr xs) → xs.length = 3 →
        validateLoop (q :: rest) = validateLoop rest)
  ∧ (∀ q rest, jget q "correct" = some (Json.num 4) →
        validateLoop (q :: rest) = validateLoop rest)
  ∧ (∀ qs, validateLoop qs = [] →
        validateQuestions (Json.arr qs) = Except.error GenError.noValidQuestions) := by
  refine ⟨?_, ?_, ?_⟩
  · intro q rest xs hopt hlen
    have ho : optionsOk q = false := by
      unfold optionsOk
      rw [hopt]
      simp [hlen]
    cases h1 : questionOk q <;> simp [validateLoop, h1, ho]
  · intro q rest hc
    have hco : correctOk q = false := by
      unfold correctOk
      rw [hc]
      decide
    cases h1 : questionOk q <;> cases h2 : optionsOk q <;>
      simp [validateLoop, h1, h2, hco]
  · intro qs hnil
    simp only [validateQuestions]
    rw [hnil]
    rfl

/-- Witness for C3: the two concrete bad elements are skipped, and a
batch containing only the length-3-options element fails wholesale. -/
theorem c3_skipped_elements_and_empty_batch_failure_witness :
    validateLoop [c3opt3] = validateLoop []
  ∧ validateLoop [c3cor4] = validateLoop []
  ∧ validateQuestions (Json.arr [c3opt3]) = Except.error GenError.noValidQuestions :=
  ⟨c3_skipped_elements_and_empty_batch_failure.1 c3opt3 []
      [Json.str "a", Json.str "b", Json.str "c"] rfl rfl
  , c3_skipped_elements_and_empty_batch_failure.2.1 c3cor4 [] rfl
  , c3_skipped_elements_and_empty_batch_failure.2.2 [c3opt3] rfl⟩

/-- C10: an element whose `question` field is present, a string, and
empty is skipped — the falsy check `!q.question` rejects the empty
string even though it is present and of string type. -/
theorem c10_empty_question_string_is_skipped (q : Json) (rest : List Json)
    (h : jget q "question" = some (Json.str "")) :
    validateLoop (q :: rest) = validateLoop rest := by
  have hq : questionOk q = false := by
    unfold questionOk
    rw [h]
    rfl
  simp [validateLoop, hq]

/-- Witness for C10: a concrete element with an empty question (and
otherwise valid fields) contributes nothing to the loop. -/
theorem c10_empty_question_string_is_skipped_witness :
    validateLoop [c10q] = validateLoop [] :=
  c10_empty_question_string_is_skipped c10q [] rfl

/-- A passing element's `options` field is an array of length 4. -/
theorem optionsOk_shape (q : Json) (h : optionsOk q = true) :
    ∃ xs, jget q "options" = some (Json.arr xs) ∧ xs.length = 4 := by
  cases hj : jget q "options" with
  | none => simp [optionsOk, hj] at h
  | some v =>
    cases v <;> simp [optionsOk, hj] at h
    case arr xs => exact ⟨xs, rfl, h⟩

/-- A passing element's `correct` field is a number in `[0, 4)`. -/
theorem correctOk_shape (q : Json) (h : correctOk q = true) :
    ∃ n, jget q "correct" = some (Json.num n) ∧ 0 ≤ n ∧ n < 4 := by
  cases hj : jget q "correct" with
  | none => simp [correctOk, hj] at h
  | some v =>
    cases v <;> simp [correctOk, hj] at h
    case num n => exact ⟨n, rfl, h.1, h.2⟩

/-- C4 counterexample: the claim "`question` is a non-empty string
(trimmed)" and "`correct` is integer-valued" both fail.  A candidate
whose question is the single space `" "` passes the falsy check (only the
*untrimmed* text is tested) and is returned with an empty trimmed
question; a candidate with `correct = 1.5` passes `0 <= correct < 4`
(no integrality check) and is returned with the non-integer 3/2. -/
theorem c4_counterexample :
    processGeminiText c4rawA =
      Except.ok [{ question := "", options := ["a", "b", "c", "d"], correct := 0
                 , explanation := Json.str "", subject := Json.str "" }]
  ∧ processGeminiText c4rawB =
      Except.ok [{ question := "Q", options := ["a", "b", "c", "d"], correct := mkRat 3 2
                 , explanation := Json.str "", subject := Json.str "" }]
  ∧ (mkRat 3 2).den = 2 :=
  ⟨rfl, rfl, rfl⟩

/-- C4 amended: every record the validator returns arises from a source
element passing the three checks, with exactly 4 (string) options,
a *numeric* `correct` in `[0,4)` (not necessarily an integer), the
question equal to the trimmed source text (possibly empty, since only
the untrimmed text is checked for truthiness), and `explanation` /
`subject` defaulted to the empty string when absent. -/
theorem c4_amended_validator_output_shape (qs : List Json) (l : List QuestionData)
    (h : validateQuestions (Json.arr qs) = Except.ok l) :
    ∀ r ∈ l, ∃ q ∈ qs, passes q = true ∧ r = normalizeQ q
      ∧ r.options.length = 4 ∧ 0 ≤ r.correct ∧ r.correct < 4
      ∧ (jget q "explanation" = none → r.explanation = Json.str "")
      ∧ (jget q "subject" = none → r.subject = Json.str "") := by
  have hl : l = (qs.filter passes).map normalizeQ := by
    simp only [validateQuestions] at h
    by_cases hz : (validateLoop qs).length = 0
    · rw [if_pos hz] at h
      cases h
    · rw [if_neg hz] at h
      rw [← Except.ok.inj h, validateLoop_eq_filterMap]
  subst hl
  intro r hr
  rw [List.mem_map] at hr
  obtain ⟨q, hqmem, hrq⟩ := hr
  rw [List.mem_filter] at hqmem
  obtain ⟨hqs, hp⟩ := hqmem
  have hp2 := hp
  simp only [passes, Bool.and_eq_true] at hp2
  obtain ⟨⟨hq1, hq2⟩, hq3⟩ := hp2
  obtain ⟨xs, hxs, hxlen⟩ := optionsOk_shape q hq2
  obtain ⟨n, hn, hn0, hn4⟩ := correctOk_shape q hq3
  subst hrq
  refine ⟨q, hqs, hp, rfl, ?_, ?_, ?_, ?_, ?_⟩
  · simp [normalizeQ, jgetArrD, hxs, hxlen]
  · simpa [normalizeQ, numOf, hn] using hn0
  · simpa [normalizeQ, numOf, hn] using hn4
  · intro hnone
    simp [normalizeQ, jsOr, hnone]
  · intro hnone
    simp [normalizeQ, jsOr, hnone]

/-- Witness for the amended C4: the concrete singleton batch `[c4q]`,
instantiated at its one returned record. -/
theorem c4_amended_validator_output_shape_witness :
    ∃ q ∈ [c4q], passes q = true ∧ normalizeQ c4q = normalizeQ q
      ∧ (normalizeQ c4q).options.length = 4
      ∧ 0 ≤ (normalizeQ c4q).correct ∧ (normalizeQ c4q).correct < 4
      ∧ (jget q "explanation" = none → (normalizeQ c4q).explanation = Json.str "")
      ∧ (jget q "subject" = none → (normalizeQ c4q).subject = Json.str "") :=
  c4_amended_validator_output_shape [c4q] [normalizeQ c4q] rfl (normalizeQ c4q) (by simp)

/-- `handlePost` writes only the `questions` or `scores` collection; the
three step collections are untouched on every branch. -/
theorem handlePost_preserves_steps (body : Json) (st : Store) :
    (handlePost body st).1.step1 = st.step1
  ∧ (handlePost body st).1.step2 = st.step2
  ∧ (handlePost body st).1.step3 = st.step3 := by
  unfold handlePost
  repeat' split
  all_goals simp

/-- C5 counterexample: `POST /api/questions` stores the new Question in
the `questions` collection (201, one document), but the step-agnostic GET
listing — which reads only the `step1`/`step2`/`step3` collections — does
not return it: starting from the empty store the listing is empty, so the
round-trip claim fails (the real endpoint returns a random permutation of
the modelled listing, and every permutation of `[]` is `[]`). -/
theorem c5_counterexample :
    postStatus (handlePost c5body emptyStore).2 = 201
  ∧ (handlePost c5body emptyStore).1.questions = [mkQuestionDoc c5body emptyStore]
  ∧ getNoStepDocs none (handlePost c5body emptyStore).1 = [] :=
  ⟨rfl, rfl, rfl⟩

/-- C5 amended: the step-agnostic GET listing reads only the three step
collections, so it is entirely unchanged by any `POST /api/questions`
(in particular a newly inserted Question never appears among its
results). -/
theorem c5_amended_no_step_listing_ignores_post (body : Json) (st : Store)
    (lim : Option Nat) :
    getNoStepDocs lim (handlePost body st).1 = getNoStepDocs lim st := by
  obtain ⟨h1, h2, h3⟩ := handlePost_preserves_steps body st
  unfold getNoStepDocs
  rw [h1, h2, h3]

/-- C6 counterexample: an upstream failure with HTTP status 500 produces
the AI-client message "Gemini API service unavailable. Please try again
later.", which matches none of the handler's `API key` / `quota` /
`limit` / `network` / `fetch` substring tests — so `/api/generate`
returns 500, not the claimed 503. -/
theorem c6_counterexample :
    generateErrorStatus (geminiHttpErrorMessage 500 "Internal Server Error") = 500
  ∧ generateErrorStatus (geminiHttpErrorMessage 500 "Internal Server Error") ≠ 503 :=
  ⟨rfl, by decide⟩

/-- C6 amended: invalid-credential failures map to 401 and quota failures
to 429 as claimed, but *every* upstream status ≥ 500 maps to 500 — the
handler's 503 branch fires only for error text containing "network" or
"fetch", which no AI-client status message contains. -/
theorem c6_amended_status_mapping (s : Nat) (stext : String) :
    (s = 401 → generateErrorStatus (geminiHttpErrorMessage s stext) = 401)
  ∧ (s = 429 → generateErrorStatus (geminiHttpErrorMessage s stext) = 429)
  ∧ (500 ≤ s → generateErrorStatus (geminiHttpErrorMessage s stext) = 500) := by
  refine ⟨?_, ?_, ?_⟩
  · intro h
    subst h
    rfl
  · intro h
    subst h
    rfl
  · intro h
    have h1 : ¬ s = 401 := by omega
    have h2 : ¬ s = 429 := by omega
    unfold geminiHttpErrorMessage
    rw [if_neg h1, if_neg h2, if_pos h]
    rfl

/-- Witness for the amended C6 at the concrete upstream status 503. -/
theorem c6_amended_status_mapping_witness :
    generateErrorStatus (geminiHttpErrorMessage 503 "Service Unavailable") = 500 :=
  (c6_amended_status_mapping 503 "Service Unavailable").2.2 (by decide)

/-- C7: for a question-creation body (non-score type, truthy `question`
and `options`, numeric `correct`), the handler responds 400 exactly when
the options value does not denote a JSON array of at least 2 items or the
correct index lies outside `[0, length)`; on the 400 path the store is
unchanged, otherwise the question document is appended and 201 returned. -/
theorem c7_post_question_validation (body : Json) (st : Store) (c : Rat)
    (hnotscore : isScoreType body = false)
    (hq : truthyOpt (jget body "question") = true)
    (hopt : truthyOpt (jget body "options") = true)
    (hc : jget body "correct" = some (Json.num c)) :
    (∀ opts, parsedOptionsOf body = some (Json.arr opts) →
       ((2 ≤ opts.length ∧ 0 ≤ c ∧ c < (opts.length : Rat)) →
          handlePost body st =
            ({ st with
                questions := st.questions ++ [mkQuestionDoc body st],
                nextId := st.nextId + 1 },
             PostResp.createdQuestion (mkQuestionDoc body st)))
     ∧ (¬ (2 ≤ opts.length ∧ 0 ≤ c ∧ c < (opts.length : Rat)) →
          (handlePost body st).1 = st ∧ postStatus (handlePost body st).2 = 400))
  ∧ ((∀ opts, parsedOptionsOf body ≠ some (Json.arr opts)) →
       (handlePost body st).1 = st ∧ postStatus (handlePost body st).2 = 400) := by
  have hnum : numOf (jget body "correct") = c := by
    rw [hc]
    rfl
  have hbool : (!truthyOpt (jget body "question") || !truthyOpt (jget body "options")
      || !isNumOpt (jget body "correct")) = false := by
    rw [hq, hopt, hc]
    rfl
  have hmain : handlePost body st =
      (match parsedOptionsOf body with
       | some (Json.arr opts) =>
         if opts.length < 2 then
           (st, PostResp.badRequest "Options must be a valid JSON array of at least 2 items")
         else if numOf (jget body "correct") < 0
             ∨ (opts.length : Rat) ≤ numOf (jget body "correct") then
           (st, PostResp.badRequest "Correct answer index out of range")
         else
           ({ st with
               questions := st.questions ++ [mkQuestionDoc body st],
               nextId := st.nextId + 1 },
            PostResp.createdQuestion (mkQuestionDoc body st))
       | _ => (st, PostResp.badRequest "Options must be a valid JSON array of at least 2 items")) := by
    unfold handlePost
    rw [hnotscore, hbool]
    simp
  refine ⟨?_, ?_⟩
  · intro opts hpo
    have hmain2 : handlePost body st =
        (if opts.length < 2 then
           (st, PostResp.badRequest "Options must be a valid JSON array of at least 2 items")
         else if numOf (jget body "correct") < 0
             ∨ (opts.length : Rat) ≤ numOf (jget body "correct") then
           (st, PostResp.badRequest "Correct answer index out of range")
         else
           ({ st with
               questions := st.questions ++ [mkQuestionDoc body st],
               nextId := st.nextId + 1 },
            PostResp.createdQuestion (mkQuestionDoc body st))) := by
      rw [hmain, hpo]
    constructor
    · rintro ⟨hlen, hc0, hcu⟩
      have hn2 : ¬ opts.length < 2 := by omega
      have hcond : ¬ (numOf (jget body "correct") < 0
          ∨ (opts.length : Rat) ≤ numOf (jget body "correct")) := by
        rw [hnum]
        push_neg
        exact ⟨hc0, hcu⟩
      rw [hmain2, if_neg hn2, if_neg hcond]
    · intro hneg
      by_cases hl2 : opts.length < 2
      · rw [hmain2, if_pos hl2]
        exact ⟨rfl, rfl⟩
      · have hlen : 2 ≤ opts.length := by omega
        have hrange : numOf (jget body "correct") < 0
            ∨ (opts.length : Rat) ≤ numOf (jget body "correct") := by
          rw [hnum]
          by_contra hcon
          push_neg at hcon
          exact hneg ⟨hlen, hcon.1, hcon.2⟩
        rw [hmain2, if_neg hl2, if_pos hrange]
        exact ⟨rfl, rfl⟩
  · intro hnone
    rw [hmain]
    cases hpo : parsedOptionsOf body with
    | none => exact ⟨rfl, rfl⟩
    | some v =>
      cases v with
      | arr opts => exact absurd hpo (hnone opts)
      | null => exact ⟨rfl, rfl⟩
      | bool b => exact ⟨rfl, rfl⟩
      | num q => exact ⟨rfl, rfl⟩
      | str s => exact ⟨rfl, rfl⟩
      | obj kvs => exact ⟨rfl, rfl⟩

/-- Witness for C7: the concrete two-option body is accepted and
appended with status 201. -/
theorem c7_post_question_validation_witness :
    handlePost c7body emptyStore =
      ({ emptyStore with questions := [mkQuestionDoc c7body emptyStore], nextId := 1 },
       PostResp.createdQuestion (mkQuestionDoc c7body emptyStore)) := by
  have h := ((c7_post_question_validation c7body emptyStore 1 rfl rfl rfl rfl).1
      [Json.str "x", Json.str "y"] rfl).1 (by decide)
  exact h

/-- C8: DELETE responds 400 exactly when `ids` is missing, not an array,
or empty; a non-empty `ids` array always succeeds (200), removing exactly
the documents whose identifiers occur in `ids` and reporting their
number — identifiers present in `ids` but absent from the store
contribute zero, and when nothing matches the store is unchanged and the
count is 0, never an error. -/
theorem c8_delete_validation_and_absent_ids (body : Json) (st : Store) :
    ((deleteStatus (handleDelete body st).2 = 400) ↔
      (match jget body "ids" with
       | some (Json.arr ids) => ids = []
       | _ => True))
  ∧ (∀ ids, jget body "ids" = some (Json.arr ids) → ids ≠ [] →
       handleDelete body st =
         ({ st with questions := st.questions.filter (fun d => !idMatches ids d.id) },
          DeleteResp.deleted (st.questions.filter (fun d => idMatches ids d.id)).length))
  ∧ (∀ ids, jget body "ids" = some (Json.arr ids) → ids ≠ [] →
       (∀ d ∈ st.questions, idMatches ids d.id = false) →
       handleDelete body st = (st, DeleteResp.deleted 0)) := by
  have hdel : ∀ ids, jget body "ids" = some (Json.arr ids) → ids ≠ [] →
      handleDelete body st =
        ({ st with questions := st.questions.filter (fun d => !idMatches ids d.id) },
         DeleteResp.deleted (st.questions.filter (fun d => idMatches ids d.id)).length) := by
    intro ids hj hne
    have hlen : ¬ ids.length = 0 := by
      simpa [List.length_eq_zero] using hne
    simp [handleDelete, hj, hlen]
  refine ⟨?_, hdel, ?_⟩
  · cases hj : jget body "ids" with
    | none => simp [handleDelete, hj, deleteStatus]
    | some v =>
      cases v with
      | arr ids =>
        by_cases hnil : ids = []
        · subst hnil
          simp [handleDelete, hj, deleteStatus]
        · rw [hdel ids hj hnil]
          simp [deleteStatus, hnil]
      | null => simp [handleDelete, hj, deleteStatus]
      | bool b => simp [handleDelete, hj, deleteStatus]
      | num q => simp [handleDelete, hj, deleteStatus]
      | str s => simp [handleDelete, hj, deleteStatus]
      | obj kvs => simp [handleDelete, hj, deleteStatus]
  · intro ids hj hne hnomatch
    rw [hdel ids hj hne]
    have hkeep : st.questions.filter (fun d => !idMatches ids d.id) = st.questions := by
      apply List.filter_eq_self.2
      intro d hd
      simp [hnomatch d hd]
    have hmatch : st.questions.filter (fun d => idMatches ids d.id) = [] := by
      apply List.filter_eq_nil_iff.2
      intro d hd
      simp [hnomatch d hd]
    rw [hkeep, hmatch]
    rfl

/-- Witness for C8: deleting an identifier absent from a two-document
store succeeds with count 0 and leaves the store unchanged. -/
theorem c8_delete_validation_and_absent_ids_witness :
    handleDelete c8bodyMissing c8store = (c8store, DeleteResp.deleted 0) :=
  (c8_delete_validation_and_absent_ids c8bodyMissing c8store).2.2
    [Json.str "99"] rfl (by simp) (by decide)

/-- C9 counterexample: the `0 <= score <= total` invariant is not
enforced — a submission with `score = -1, total = 10` (both numbers)
is accepted (201) and stored as-is, violating `0 <= score`. -/
theorem c9_counterexample :
    postStatus (handlePost c9body emptyStore).2 = 201
  ∧ (handlePost c9body emptyStore).1.scores =
      [{ id := 0, score := -1, total := 10, percentage := Json.num (mkRat (-10) 1)
       , duration := none, step := Json.str "mixed", createdAt := 0 }]
  ∧ ¬ (0 ≤ (-1 : Rat)) :=
  ⟨rfl, by with_unfolding_all rfl, by norm_num⟩

/-- C9 amended: `POST` with type "score" and numeric `score`/`total`
always creates the record with exactly the given values — no range check
is performed — and when `percentage` is absent (or falsy) it is computed
as `score/total*100`. -/
theorem c9_amended_score_creation (body : Json) (st : Store) (s t : Rat)
    (htype : isScoreType body = true)
    (hs : jget body "score" = some (Json.num s))
    (ht : jget body "total" = some (Json.num t)) :
    handlePost body st =
      ({ st with
          scores := st.scores ++ [mkScoreDoc body st s t],
          nextId := st.nextId + 1 },
       PostResp.createdScore (mkScoreDoc body st s t))
  ∧ (truthyOpt (jget body "percentage") = false →
       (mkScoreDoc body st s t).percentage = Json.num (Rat.mul (Rat.div s t) 100)) := by
  constructor
  · unfold handlePost
    rw [htype, hs, ht]
    simp
  · intro hp
    show jsOr (jget body "percentage") (Json.num (Rat.mul (Rat.div s t) 100)) = _
    cases hj : jget body "percentage" with
    | none => rfl
    | some v =>
      rw [hj] at hp
      simp only [truthyOpt] at hp
      simp [jsOr, hp]

/-- Witness for the amended C9: the spec's example `score=7, total=10`
is created with computed percentage 70. -/
theorem c9_amended_score_creation_witness :
    handlePost c9wbody emptyStore =
      ({ emptyStore with
          scores := [mkScoreDoc c9wbody emptyStore 7 10],
          nextId := 1 },
       PostResp.createdScore (mkScoreDoc c9wbody emptyStore 7 10))
  ∧ (mkScoreDoc c9wbody emptyStore 7 10).percentage = Json.num 70 := by
  have h := c9_amended_score_creation c9wbody emptyStore 7 10 rfl rfl rfl
  refine ⟨h.1, ?_⟩
  rw [h.2 rfl]
  with_unfolding_all rfl
